import Mathlib

/-!
Verification development for the poll API of this repository.

The embedding covers the vote-submission handler and the results read
operation (app/api/polls/[id]/route.ts), the single-poll read
(first GET of the same file), and the poll CRUD handlers
(app/api/polls/route.ts), together with the storage-layer constraints of
the votes table (supabase/migrations/20240101000000_create_votes_table.sql).

Modelling conventions:
- JavaScript numbers are modelled as rationals; the values at issue
  (small integers and simple fractions) are exact in both systems.
- Timestamps are modelled as integers (epoch instants); the handlers only
  compare them.
- The relational store is a record of poll rows and vote rows; each
  storage call is evaluated against the store passed to the handler.
  The vote-insert call additionally sees a list of rows committed by
  concurrent requests between the pre-flight read and the insert, which
  embeds the interleaving discussed in the design.
-/

/-- A row of the polls table: identifier, question, ordered option labels,
creator identity, creation instant, optional expiration instant. -/
structure Poll where
  id : String
  question : String
  options : List String
  created_by : String
  created_at : Int
  expires_at : Option Int
deriving DecidableEq

/-- A row of the votes table.  The column option_index is INTEGER NOT NULL
in the migration, so every reachable stored row carries an integer-valued
index; the field keeps the handler-side numeric type only so the same
record shape can be passed to the insert call, and no theorem below relies
on a stored fractional value. -/
structure Vote where
  poll_id : String
  user_id : Option String
  ip_address : Option String
  option_index : ℚ
  created_at : Int
deriving DecidableEq

/-- The relational store: all poll rows and all vote rows. -/
structure Db where
  polls : List Poll
  votes : List Vote
deriving DecidableEq

/-- The check constraint votes_user_or_ip_check of the migration: every vote
row carries exactly one of user_id and ip_address. -/
def Db.wf (db : Db) : Prop :=
  ∀ v ∈ db.votes,
    (v.user_id.isSome ∧ v.ip_address = none) ∨
    (v.user_id = none ∧ v.ip_address.isSome)

/-- Model of the JavaScript expression a || dflt over an optional header
value: the empty string is falsy, so it falls through to the default. -/
def jsOrStr (a : Option String) (dflt : String) : String :=
  match a with
  | some s => if s = "" then dflt else s
  | none => dflt

/-- Client address resolution of the vote handler:
xff || xri || unknown, where xff and xri are the values of the
x-forwarded-for and x-real-ip request headers. -/
def clientIp (xff xri : Option String) : String :=
  jsOrStr xff (jsOrStr xri ("unknown"))

/-- Increment the list entry at position i; out-of-range positions leave the
list unchanged. -/
def incAt : List Nat → Nat → List Nat
  | [], _ => []
  | x :: xs, 0 => (x + 1) :: xs
  | x :: xs, n + 1 => x :: incAt xs n

/-- One step of the tally loop.  The outer guard is the source condition
vote.option_index < voteCounts.length.  The inner test captures which
numeric keys denote array elements of the serialized counts array: applying
the increment at a negative or fractional key mutates a non-element
property that is absent from the JSON array, so only a non-negative integer
key below the length increments an entry. -/
def tallyStep (acc : List Nat) (q : ℚ) : List Nat :=
  if q < (acc.length : ℚ) then
    if 0 ≤ q ∧ q.den = 1 then incAt acc q.num.toNat else acc
  else acc

/-- The tally computation shared by the vote handler and the results read:
a zero-initialized array of length len, incremented at each stored index. -/
def countVotes (len : Nat) (qs : List ℚ) : List Nat :=
  qs.foldl tallyStep (List.replicate len 0)

/-- The stored option indices of all votes referencing a poll. -/
def pollVoteIdxs (pid : String) (db : Db) : List ℚ :=
  (db.votes.filter (fun v => v.poll_id == pid)).map (fun v => v.option_index)

/-- Expiration test of the vote handler: a null expires_at is falsy, else
the instant is compared strictly against the current time. -/
def pollExpired (expiresAt : Option Int) (now : Int) : Bool :=
  match expiresAt with
  | some t => decide (t < now)
  | none => false

/-- Pre-flight duplicate check for an authenticated identity: an existing
vote row with this poll and this user id. -/
def existingUserVote (db : Db) (pid u : String) : Bool :=
  db.votes.any (fun v => v.poll_id == pid && v.user_id == some u)

/-- Pre-flight duplicate check for an anonymous identity: an existing vote
row with this poll, this client address and a null user id. -/
def existingIpVote (db : Db) (pid ip : String) : Bool :=
  db.votes.any (fun v => v.poll_id == pid && v.ip_address == some ip && v.user_id == none)

/-- The uniqueness constraints votes_user_unique (poll_id, user_id) and
votes_ip_unique (poll_id, ip_address) of the migration.  Null values never
conflict, so a violation needs an existing row agreeing on the poll and on
the non-null identity column of the new row. -/
def insertViolation (db : Db) (nv : Vote) : Bool :=
  db.votes.any (fun v => v.poll_id == nv.poll_id &&
    ((nv.user_id.isSome && v.user_id == nv.user_id) ||
     (nv.ip_address.isSome && v.ip_address == nv.ip_address)))

/-- Outcomes of the vote-submission handler, one per return site. -/
inductive VoteResp where
  | validationFailed
  | notFound
  | expired
  | invalidOption
  | alreadyVoted
  | alreadyVotedIp
  | insertFailed
  | success (voteCounts : List Nat) (totalVotes : Nat) (selectedOption : ℚ)
deriving DecidableEq

/-- HTTP status attached to each outcome of the vote-submission handler. -/
def voteStatus : VoteResp → Nat
  | .validationFailed => 400
  | .notFound => 404
  | .expired => 400
  | .invalidOption => 400
  | .alreadyVoted => 400
  | .alreadyVotedIp => 400
  | .insertFailed => 500
  | .success _ _ _ => 201

/-- Insert step followed by the re-read and tally of the vote handler.
The rows committed by concurrent requests become visible before the insert,
so the uniqueness constraints are checked against them as well. -/
def insertAndTally (pid : String) (idx : ℚ) (userId : Option String) (ip : String)
    (poll : Poll) (now : Int) (db : Db) (concurrent : List Vote) : VoteResp × Db :=
  let dbc : Db := { db with votes := db.votes ++ concurrent }
  let nv : Vote :=
    { poll_id := pid
      user_id := userId
      ip_address := if userId.isSome then none else some ip
      option_index := idx
      created_at := now }
  if insertViolation dbc nv then
    (.insertFailed, dbc)
  else
    let db2 : Db := { dbc with votes := dbc.votes ++ [nv] }
    let vs := pollVoteIdxs pid db2
    (.success (countVotes poll.options.length vs) vs.length idx, db2)

/-- The voteSchema declaration of app/api/polls/[id]/route.ts: the body
must carry a numeric optionIndex of at least zero (z.number().min(0), with
no integer refinement); none models a missing or non-numeric field. -/
def voteSchemaCheck (body : Option ℚ) : Bool :=
  match body with
  | none => false
  | some q => decide (0 ≤ q)

/-- The vote-submission handler (POST of app/api/polls/[id]/route.ts).
body is the parsed optionIndex field, none when the body carried no number.
The steps mirror the source: schema validation, poll lookup, expiration
check, option bound check, identity resolution with the per-identity
duplicate pre-check, insert under the storage constraints, re-read, tally. -/
def postVote (pid : String) (body : Option ℚ) (userId : Option String)
    (xff xri : Option String) (now : Int) (db : Db) (concurrent : List Vote) :
    VoteResp × Db :=
  match body with
  | none => (.validationFailed, db)
  | some idx =>
    if idx < 0 then (.validationFailed, db)
    else
      match db.polls.find? (fun p => p.id == pid) with
      | none => (.notFound, db)
      | some poll =>
        if pollExpired poll.expires_at now then (.expired, db)
        else if (poll.options.length : ℚ) ≤ idx then (.invalidOption, db)
        else
          match userId with
          | some u =>
            if existingUserVote db pid u then (.alreadyVoted, db)
            else insertAndTally pid idx (some u) (clientIp xff xri) poll now db concurrent
          | none =>
            let ip := clientIp xff xri
            if existingIpVote db pid ip then (.alreadyVotedIp, db)
            else insertAndTally pid idx none ip poll now db concurrent

/-- Outcomes of the results read operation. -/
inductive ResultsResp where
  | notFound
  | ok (voteCounts : List Nat) (totalVotes : Nat) (options : List String)
deriving DecidableEq

/-- The results read operation (second GET of app/api/polls/[id]/route.ts):
poll lookup (poll ids are unique, being the primary key), fetch of the poll
votes, tally, and the total as the number of fetched rows. -/
def getResults (pid : String) (db : Db) : ResultsResp :=
  match db.polls.find? (fun p => p.id == pid) with
  | none => .notFound
  | some poll =>
    let vs := pollVoteIdxs pid db
    .ok (countVotes poll.options.length vs) vs.length poll.options

/-- Outcomes of the single-poll read. -/
inductive GetPollResp where
  | serverError
  | notFound
  | ok (p : Poll)
deriving DecidableEq

/-- The single-poll read (first GET of app/api/polls/[id]/route.ts).
The lookup uses .single(), which yields an error whenever the filtered row
count is not exactly one, with a null data field; the handler checks the
error field first (returning 500 with the storage message) and only then
the data field (the 404 branch). -/
def getPollById (pid : String) (db : Db) : GetPollResp :=
  let rows := db.polls.filter (fun p => p.id == pid)
  let res : Option Poll × Bool :=
    match rows with
    | [p] => (some p, false)
    | _ => (none, true)
  if res.2 then .serverError
  else
    match res.1 with
    | none => .notFound
    | some p => .ok p

/-- Whitespace for the JavaScript trim operation (the inputs at issue are
ASCII, so the space-class characters suffice). -/
def jsWs (c : Char) : Bool :=
  c == ' ' || c == '\t' || c == '\n' || c == '\r'

/-- The JavaScript String.prototype.trim operation: leading and trailing
whitespace removed. -/
def jsTrim (s : String) : String :=
  ⟨(((s.data.dropWhile jsWs).reverse).dropWhile jsWs).reverse⟩

/-- Split a character list at every occurrence of a separator. -/
def splitOnChar (sep : Char) : List Char → List (List Char)
  | [] => [[]]
  | c :: cs =>
    let r := splitOnChar sep cs
    if c = sep then [] :: r
    else
      match r with
      | [] => [[c]]
      | g :: gs => (c :: g) :: gs

/-- Raw poll-creation/update body after JSON parsing: question text, option
texts, and the expiration field.  The expiration preprocess step of the
schema maps null, absence and the empty string to null and a parseable date
to an absolute instant; it is modelled as the already-normalized optional
instant since no claim concerns date parsing. -/
structure PollBody where
  question : String
  options : List String
  expiresAt : Option Int
deriving DecidableEq

/-- Question rule of pollSchema: length bounds 5..160 checked on the raw
string, then the transform to the trimmed string. -/
def questionOk (q : String) : Bool :=
  5 ≤ q.length && q.length ≤ 160

/-- Option-element rule of pollSchema: length bounds 1..50 checked on the
raw string, then the transform to the trimmed string. -/
def optionOk (o : String) : Bool :=
  1 ≤ o.length && o.length ≤ 50

/-- Options rule of pollSchema: every element passes the element rule, the
array has 2..10 entries, and the refinement sees the transformed (trimmed)
elements, whose set size must equal the array length. -/
def optionsOk (os : List String) : Bool :=
  os.all optionOk && 2 ≤ os.length && os.length ≤ 10 &&
    decide (os.map jsTrim).Nodup

/-- Full pollSchema check of app/api/polls/route.ts. -/
def pollSchemaCheck (b : PollBody) : Bool :=
  questionOk b.question && optionsOk b.options

/-- Hexadecimal digit test, both cases. -/
def isHexDigit (c : Char) : Bool :=
  c.isDigit || (('a' ≤ c) && (c ≤ 'f')) || (('A' ≤ c) && (c ≤ 'F'))

/-- The uuid format accepted by the id rule of pollUpdateSchema and of the
delete-id schema: five hyphen-separated hexadecimal groups of lengths
8, 4, 4, 4 and 12. -/
def isUuid (s : String) : Bool :=
  match splitOnChar '-' s.data with
  | [a, b, c, d, e] =>
    a.length == 8 && b.length == 4 && c.length == 4 && d.length == 4 &&
    e.length == 12 && a.all isHexDigit && b.all isHexDigit &&
    c.all isHexDigit && d.all isHexDigit && e.all isHexDigit
  | _ => false

/-- Outcomes of the poll CRUD handlers, one per return site. -/
inductive PollResp where
  | validationFailed
  | authRequired
  | serverError
  | notFound
  | created (p : Poll)
  | okPoll (p : Poll)
  | okDeleted
deriving DecidableEq

/-- Server-assigned identifier for a new poll row (gen_random_uuid in the
store; any injection fresh for the store works for the model). -/
def newPollId (db : Db) : String :=
  "poll-" ++ toString db.polls.length

/-- The poll-creation handler (POST of app/api/polls/route.ts): schema
validation, then authentication, then the insert of the row built by
preparePollData (trimmed question and options, creator, creation instant,
expiration only when provided). -/
def createPoll (b : PollBody) (userId : Option String) (now : Int) (db : Db) :
    PollResp × Db :=
  if pollSchemaCheck b then
    match userId with
    | none => (.authRequired, db)
    | some u =>
      let p : Poll :=
        { id := newPollId db
          question := jsTrim b.question
          options := b.options.map jsTrim
          created_by := u
          created_at := now
          expires_at := b.expiresAt }
      (.created p, { db with polls := db.polls ++ [p] })
  else (.validationFailed, db)

/-- The poll-update handler (PUT of app/api/polls/route.ts): validation of
id and body, authentication, then an update filtered on both the poll id
and the creator column; maybeSingle yields null data (hence 404 and no
mutation) when no row matches, and the updated record otherwise.
The expiration column is written only when the body provided a value. -/
def putPoll (bid : String) (b : PollBody) (userId : Option String) (db : Db) :
    PollResp × Db :=
  if isUuid bid && pollSchemaCheck b then
    match userId with
    | none => (.authRequired, db)
    | some u =>
      let upd : Poll → Poll := fun p =>
        { p with
          question := jsTrim b.question
          options := b.options.map jsTrim
          expires_at := match b.expiresAt with
            | some t => some t
            | none => p.expires_at }
      match db.polls.find? (fun p => p.id == bid && p.created_by == u) with
      | none => (.notFound, db)
      | some p0 =>
        (.okPoll (upd p0),
          { db with polls := db.polls.map (fun p =>
              if p.id == bid && p.created_by == u then upd p else p) })
  else (.validationFailed, db)

/-- The poll-delete handler (DELETE of app/api/polls/route.ts): the id query
parameter is parsed as a uuid (a missing or malformed id raises a parse
error that the surrounding catch turns into the generic 500, as this
handler has no validation-error branch), then authentication, then a delete
filtered on both the poll id and the creator column; no matched row yields
404 and no mutation, a matched row is removed and its votes cascade. -/
def deletePoll (bidParam : Option String) (userId : Option String) (db : Db) :
    PollResp × Db :=
  match bidParam with
  | none => (.serverError, db)
  | some bid =>
    if isUuid bid then
      match userId with
      | none => (.authRequired, db)
      | some u =>
        match db.polls.find? (fun p => p.id == bid && p.created_by == u) with
        | none => (.notFound, db)
        | some _ =>
          (.okDeleted,
            { polls := db.polls.filter (fun p => !(p.id == bid && p.created_by == u))
              votes := db.votes.filter (fun v => v.poll_id != bid) })
    else (.serverError, db)

/-- Modelled from the spec: the first value of a forwarded-address header,
that is, the text before the first comma, trimmed.  The source never splits
the header; this definition exists only to compare the specified identity
with the one the code resolves. -/
def specFirstForwardedValue (hdr : String) : String :=
  jsTrim ⟨(splitOnChar ',' hdr.data).headD []⟩

/-- The store after appending one inserted vote row. -/
def dbAfter (db : Db) (nv : Vote) : Db :=
  { db with votes := db.votes ++ [nv] }

/-- A stored option index that denotes an element of the counts array:
a non-negative integer strictly below the option count. -/
def isValidIdx (len : Nat) (q : ℚ) : Prop :=
  0 ≤ q ∧ q.den = 1 ∧ q < (len : ℚ)

instance (len : Nat) (q : ℚ) : Decidable (isValidIdx len q) := by
  unfold isValidIdx; infer_instance

theorem incAt_length (l : List Nat) (i : Nat) : (incAt l i).length = l.length := by
  induction l generalizing i with
  | nil => rfl
  | cons x xs ih =>
    cases i with
    | zero => rfl
    | succ n => simp [incAt, ih]

theorem incAt_sum (l : List Nat) (i : Nat) (h : i < l.length) :
    (incAt l i).sum = l.sum + 1 := by
  induction l generalizing i with
  | nil => simp at h
  | cons x xs ih =>
    cases i with
    | zero => simp [incAt]; omega
    | succ n =>
      simp only [incAt, List.sum_cons]
      rw [ih n (by simpa using h)]
      omega

theorem tallyStep_length (acc : List Nat) (q : ℚ) :
    (tallyStep acc q).length = acc.length := by
  unfold tallyStep
  split
  · split
    · exact incAt_length acc q.num.toNat
    · rfl
  · rfl

theorem tallyStep_sum_valid (acc : List Nat) (q : ℚ)
    (h : isValidIdx acc.length q) : (tallyStep acc q).sum = acc.sum + 1 := by
  obtain ⟨h0, hden, hlt⟩ := h
  have hq : ((q.num : ℚ)) = q := (Rat.den_eq_one_iff q).mp hden
  have hnum_lt : q.num < (acc.length : ℤ) := by
    have : ((q.num : ℚ)) < ((acc.length : ℤ) : ℚ) := by push_cast; rw [hq]; exact hlt
    exact_mod_cast this
  have hnum_nonneg : 0 ≤ q.num := by
    have : ((0 : ℤ) : ℚ) ≤ ((q.num : ℚ)) := by rw [hq]; exact_mod_cast h0
    exact_mod_cast this
  have hidx : q.num.toNat < acc.length := by omega
  unfold tallyStep
  rw [if_pos hlt, if_pos ⟨h0, hden⟩]
  exact incAt_sum acc q.num.toNat hidx

theorem foldl_tallyStep_sum (qs : List ℚ) :
    ∀ acc : List Nat, (∀ q ∈ qs, isValidIdx acc.length q) →
      (qs.foldl tallyStep acc).sum = acc.sum + qs.length := by
  induction qs with
  | nil => intro acc _; simp
  | cons q qs ih =>
    intro acc h
    have hq : isValidIdx acc.length q := h q (List.mem_cons_self q qs)
    have hrest : ∀ r ∈ qs, isValidIdx (tallyStep acc q).length r := by
      intro r hr
      rw [tallyStep_length]
      exact h r (List.mem_cons_of_mem q hr)
    simp only [List.foldl_cons, List.length_cons]
    rw [ih (tallyStep acc q) hrest, tallyStep_sum_valid acc q hq]
    omega

theorem countVotes_sum (len : Nat) (qs : List ℚ)
    (h : ∀ q ∈ qs, isValidIdx len q) : (countVotes len qs).sum = qs.length := by
  unfold countVotes
  rw [foldl_tallyStep_sum qs (List.replicate len 0)
    (by simpa [List.length_replicate] using h)]
  simp

/-- C3 counterexample: with a forwarded-address header holding the standard
comma-separated list, the resolved anonymous identity is the whole header
value, not its first value as the claim states. -/
theorem c3_counterexample :
    clientIp (some ("1.2.3.4, 5.6.7.8")) none = "1.2.3.4, 5.6.7.8" ∧
    specFirstForwardedValue ("1.2.3.4, 5.6.7.8") = "1.2.3.4" ∧
    clientIp (some ("1.2.3.4, 5.6.7.8")) none ≠
      specFirstForwardedValue ("1.2.3.4, 5.6.7.8") := by decide

/-- C3 (amended): the resolved anonymous identity is the entire
forwarded-address header value when it is present and non-empty (no
splitting at commas), else the entire reverse-proxy real-address header
value when present and non-empty, else the literal unknown; an empty header
value is falsy and skipped. -/
theorem c3_identity_resolution (s t : String) (xri : Option String)
    (hs : s ≠ "") (ht : t ≠ "") :
    clientIp (some s) xri = s ∧
    clientIp none (some t) = t ∧
    clientIp (some ("")) (some t) = t ∧
    clientIp none none = "unknown" ∧
    clientIp (some ("")) none = "unknown" := by
  refine ⟨?_, ?_, ?_, ?_, ?_⟩ <;> simp [clientIp, jsOrStr, hs, ht]

/-- C3 witness. -/
theorem c3_identity_resolution_witness :
    clientIp (some ("9.9.9.9")) none = "9.9.9.9" ∧
    clientIp none (some ("8.8.8.8")) = "8.8.8.8" ∧
    clientIp (some ("")) (some ("8.8.8.8")) = "8.8.8.8" ∧
    clientIp none none = "unknown" ∧
    clientIp (some ("")) none = "unknown" :=
  c3_identity_resolution ("9.9.9.9") ("8.8.8.8") none (by decide) (by decide)

theorem insertAndTally_fst_ne_validationFailed (pid : String) (idx : ℚ)
    (userId : Option String) (ip : String) (poll : Poll) (now : Int)
    (db : Db) (concurrent : List Vote) :
    (insertAndTally pid idx userId ip poll now db concurrent).1 ≠
      VoteResp.validationFailed := by
  simp only [insertAndTally]
  split <;> (split <;> simp)

theorem postVote_nonneg_fst_ne_validationFailed (pid : String) (q : ℚ)
    (u : Option String) (xff xri : Option String) (now : Int) (db : Db)
    (conc : List Vote) (hq : 0 ≤ q) :
    (postVote pid (some q) u xff xri now db conc).1 ≠
      VoteResp.validationFailed := by
  simp only [postVote]
  rw [if_neg (not_lt.mpr hq)]
  rcases hfind : db.polls.find? (fun p => p.id == pid) with _ | poll
  · rw [hfind]
    simp
  · rw [hfind]
    cases hexp : pollExpired poll.expires_at now
    · by_cases hbound : (poll.options.length : ℚ) ≤ q
      · simp [hexp, hbound]
      · cases u with
        | none =>
          cases hv : existingIpVote db pid (clientIp xff xri)
          · simp only [hexp, Bool.false_eq_true, if_false, if_neg hbound, hv]
            exact insertAndTally_fst_ne_validationFailed pid q none
              (clientIp xff xri) poll now db conc
          · simp [hexp, hbound, hv]
        | some w =>
          cases hv : existingUserVote db pid w
          · simp only [hexp, Bool.false_eq_true, if_false, if_neg hbound, hv]
            exact insertAndTally_fst_ne_validationFailed pid q (some w)
              (clientIp xff xri) poll now db conc
          · simp [hexp, hbound, hv]
    · simp [hexp]

/-- C4 counterexample: the value one half is not an integer, yet it passes
the body validation (the rule checks only that the number is at least
zero), and on a concrete request the handler does not return the
validation-error outcome for it — the submission is not rejected with a
validation error before the persistence call, contradicting the claim.
Nothing is asserted about the stored row or the tally, since the INTEGER
column of the votes table governs what the store does with the value. -/
theorem c4_counterexample :
    (mkRat 1 2).den ≠ 1 ∧
    voteSchemaCheck (some (mkRat 1 2)) = true ∧
    (postVote ("p1") (some (mkRat 1 2)) none none none 0
      ⟨[⟨"p1", "Best color?", ["Red", "Blue"], "alice", 0, none⟩], []⟩ []).1 ≠
      VoteResp.validationFailed := by decide

/-- C4 (amended): the body validation accepts optionIndex exactly when it
is a number at least zero; a missing or non-numeric optionIndex and a
negative optionIndex are rejected with a validation error before any
persistence call (the store is returned unchanged), while for any
optionIndex at least zero — fractional values included, as the schema has
no integer check — the handler never returns the validation-error
outcome. -/
theorem c4_validation (q r : ℚ) (pid : String) (u : Option String)
    (xff xri : Option String) (now : Int) (db : Db) (conc : List Vote)
    (hq : q < 0) (hr : 0 ≤ r) :
    voteSchemaCheck none = false ∧
    voteSchemaCheck (some q) = false ∧
    voteSchemaCheck (some r) = true ∧
    postVote pid (some q) u xff xri now db conc = (.validationFailed, db) ∧
    postVote pid none u xff xri now db conc = (.validationFailed, db) ∧
    (postVote pid (some r) u xff xri now db conc).1 ≠
      VoteResp.validationFailed := by
  refine ⟨rfl, ?_, ?_, ?_, rfl, ?_⟩
  · simp [voteSchemaCheck, not_le.mpr hq]
  · simp [voteSchemaCheck, hr]
  · simp only [postVote]
    rw [if_pos hq]
  · exact postVote_nonneg_fst_ne_validationFailed pid r u xff xri now db conc hr

/-- C4 witness. -/
theorem c4_validation_witness :
    voteSchemaCheck none = false ∧
    voteSchemaCheck (some (-1)) = false ∧
    voteSchemaCheck (some (mkRat 1 2)) = true ∧
    postVote ("p1") (some (-1)) none none none 0 ⟨[], []⟩ [] =
      (.validationFailed, ⟨[], []⟩) ∧
    postVote ("p1") none none none none 0 ⟨[], []⟩ [] =
      (.validationFailed, ⟨[], []⟩) ∧
    (postVote ("p1") (some (mkRat 1 2)) none none none 0 ⟨[], []⟩ []).1 ≠
      VoteResp.validationFailed :=
  c4_validation (-1) (mkRat 1 2) ("p1") none none none 0 ⟨[], []⟩ []
    (by norm_num) (by decide)

/-- C5: a vote submission with a well-formed body on a poll whose
expiration instant lies strictly before the current time fails with the
expired-poll condition, for any identity and any concurrent activity, and
the store is returned unchanged (no vote row inserted). -/
theorem c5_expired_poll_rejects (pid : String) (idx : ℚ) (uid : Option String)
    (xff xri : Option String) (now t : Int) (db : Db) (conc : List Vote)
    (poll : Poll)
    (hp : db.polls.find? (fun p => p.id == pid) = some poll)
    (ht : poll.expires_at = some t) (hlt : t < now) (h0 : 0 ≤ idx) :
    postVote pid (some idx) uid xff xri now db conc = (.expired, db) := by
  simp only [postVote]
  rw [if_neg (not_lt.mpr h0), hp]
  simp [pollExpired, ht, hlt]

/-- C5 witness. -/
theorem c5_expired_poll_rejects_witness :
    postVote ("p1") (some 0) (some ("u1")) none none 10
      ⟨[⟨"p1", "Best color?", ["Red", "Blue"], "alice", 0, some 5⟩], []⟩ [] =
    (.expired, ⟨[⟨"p1", "Best color?", ["Red", "Blue"], "alice", 0, some 5⟩], []⟩) :=
  c5_expired_poll_rejects ("p1") 0 (some ("u1")) none none 10 5
    ⟨[⟨"p1", "Best color?", ["Red", "Blue"], "alice", 0, some 5⟩], []⟩ []
    ⟨"p1", "Best color?", ["Red", "Blue"], "alice", 0, some 5⟩
    (by decide) rfl (by decide) (by norm_num)

/-- C6: on an existing, non-expired poll, a vote whose option index is at
least the option count fails with the invalid-option condition, the store
is returned unchanged, and a subsequent results read is unaffected. -/
theorem c6_out_of_range_option_rejects (pid : String) (idx : ℚ)
    (uid : Option String) (xff xri : Option String) (now : Int) (db : Db)
    (conc : List Vote) (poll : Poll)
    (hp : db.polls.find? (fun p => p.id == pid) = some poll)
    (hx : pollExpired poll.expires_at now = false)
    (h0 : 0 ≤ idx) (hge : (poll.options.length : ℚ) ≤ idx) :
    postVote pid (some idx) uid xff xri now db conc = (.invalidOption, db) ∧
    getResults pid (postVote pid (some idx) uid xff xri now db conc).2 =
      getResults pid db := by
  have hmain : postVote pid (some idx) uid xff xri now db conc = (.invalidOption, db) := by
    simp only [postVote]
    rw [if_neg (not_lt.mpr h0), hp]
    simp [hx, hge]
  exact ⟨hmain, by rw [hmain]⟩

/-- C6 witness. -/
theorem c6_out_of_range_option_rejects_witness :
    postVote ("p1") (some 2) none none none 0
      ⟨[⟨"p1", "Best color?", ["Red", "Blue"], "alice", 0, none⟩], []⟩ [] =
      (.invalidOption, ⟨[⟨"p1", "Best color?", ["Red", "Blue"], "alice", 0, none⟩], []⟩) ∧
    getResults ("p1")
      (postVote ("p1") (some 2) none none none 0
        ⟨[⟨"p1", "Best color?", ["Red", "Blue"], "alice", 0, none⟩], []⟩ []).2 =
    getResults ("p1") ⟨[⟨"p1", "Best color?", ["Red", "Blue"], "alice", 0, none⟩], []⟩ :=
  c6_out_of_range_option_rejects ("p1") 2 none none none 0
    ⟨[⟨"p1", "Best color?", ["Red", "Blue"], "alice", 0, none⟩], []⟩ []
    ⟨"p1", "Best color?", ["Red", "Blue"], "alice", 0, none⟩
    (by decide) (by decide) (by norm_num) (by norm_num)

/-- C7: evidence of the divergence.  On a store holding only poll p1, the
single-poll read of a missing identifier returns the 500 server-error
outcome (the .single() lookup yields an error for zero rows and the error
branch precedes the null-data branch, leaving the 404 branch unreachable),
while an existing identifier is returned normally. -/
theorem c7_missing_poll_returns_500 :
    getPollById ("p2")
      ⟨[⟨"p1", "Best color?", ["Red", "Blue"], "alice", 0, none⟩], []⟩ =
      GetPollResp.serverError ∧
    getPollById ("p1")
      ⟨[⟨"p1", "Best color?", ["Red", "Blue"], "alice", 0, none⟩], []⟩ =
      GetPollResp.ok ⟨"p1", "Best color?", ["Red", "Blue"], "alice", 0, none⟩ := by
  decide

/-- C1 counterexample: a stored vote whose option index equals the option
count (reachable, since the poll-update handler may shrink the option list
under existing votes) is skipped by the tally but counted by totalVotes, so
the returned counts sum to 0 while totalVotes is 1; moreover totalVotes is
the row count, not the sum of the counts array. -/
theorem c1_counterexample :
    getResults ("p1")
      ⟨[⟨"p1", "Best color?", ["Red", "Blue"], "alice", 0, none⟩],
        [⟨"p1", some ("u9"), none, 2, 0⟩]⟩ =
      ResultsResp.ok [0, 0] 1 ["Red", "Blue"] ∧
    ([0, 0] : List Nat).sum ≠ 1 := by decide

/-- C1 (amended): totalVotes is the number of stored vote rows of the poll
and the counts array sums to the number of stored rows whose index denotes
an in-range array element; whenever every stored index of the poll is a
non-negative integer below the option count — in particular after M
successful votes with in-range indices on a poll whose option list never
changed — the returned counts sum to exactly the returned totalVotes. -/
theorem c1_tally_sum_inrange (pid : String) (db : Db) (poll : Poll)
    (hp : db.polls.find? (fun p => p.id == pid) = some poll)
    (hv : ∀ q ∈ pollVoteIdxs pid db, isValidIdx poll.options.length q) :
    getResults pid db =
      ResultsResp.ok (countVotes poll.options.length (pollVoteIdxs pid db))
        (pollVoteIdxs pid db).length poll.options ∧
    (countVotes poll.options.length (pollVoteIdxs pid db)).sum =
      (pollVoteIdxs pid db).length := by
  constructor
  · simp only [getResults]
    rw [hp]
  · exact countVotes_sum _ _ hv

/-- C1 witness. -/
theorem c1_tally_sum_inrange_witness :
    getResults ("p1")
      ⟨[⟨"p1", "Best color?", ["Red", "Blue"], "alice", 0, none⟩],
        [⟨"p1", some ("u1"), none, 0, 0⟩, ⟨"p1", none, some ("9.9.9.9"), 1, 0⟩]⟩ =
      ResultsResp.ok
        (countVotes 2
          (pollVoteIdxs ("p1")
            ⟨[⟨"p1", "Best color?", ["Red", "Blue"], "alice", 0, none⟩],
              [⟨"p1", some ("u1"), none, 0, 0⟩, ⟨"p1", none, some ("9.9.9.9"), 1, 0⟩]⟩))
        (pollVoteIdxs ("p1")
          ⟨[⟨"p1", "Best color?", ["Red", "Blue"], "alice", 0, none⟩],
            [⟨"p1", some ("u1"), none, 0, 0⟩, ⟨"p1", none, some ("9.9.9.9"), 1, 0⟩]⟩).length
        ["Red", "Blue"] ∧
    (countVotes 2
      (pollVoteIdxs ("p1")
        ⟨[⟨"p1", "Best color?", ["Red", "Blue"], "alice", 0, none⟩],
          [⟨"p1", some ("u1"), none, 0, 0⟩, ⟨"p1", none, some ("9.9.9.9"), 1, 0⟩]⟩)).sum =
    (pollVoteIdxs ("p1")
      ⟨[⟨"p1", "Best color?", ["Red", "Blue"], "alice", 0, none⟩],
        [⟨"p1", some ("u1"), none, 0, 0⟩, ⟨"p1", none, some ("9.9.9.9"), 1, 0⟩]⟩).length :=
  c1_tally_sum_inrange ("p1")
    ⟨[⟨"p1", "Best color?", ["Red", "Blue"], "alice", 0, none⟩],
      [⟨"p1", some ("u1"), none, 0, 0⟩, ⟨"p1", none, some ("9.9.9.9"), 1, 0⟩]⟩
    ⟨"p1", "Best color?", ["Red", "Blue"], "alice", 0, none⟩
    (by decide) (by decide)

/-- C2 counterexample: when a concurrent duplicate from the same identity
commits between the pre-flight read and the insert, the insert fails on the
uniqueness constraint and the handler returns the generic 500 failure
outcome, not the 400 already-voted outcome the claim states. -/
theorem c2_counterexample :
    (postVote ("p1") (some 0) (some ("u1")) none none 0
      ⟨[⟨"p1", "Best color?", ["Red", "Blue"], "alice", 0, none⟩], []⟩
      [⟨"p1", some ("u1"), none, 0, 0⟩]).1 = VoteResp.insertFailed ∧
    voteStatus VoteResp.insertFailed = 500 ∧
    voteStatus VoteResp.alreadyVoted = 400 := by decide

/-- C2 (amended): when the vote-insert call fails on the storage-layer
uniqueness constraint because a concurrent duplicate from the same
authenticated identity became visible after the pre-flight check, the
handler returns the generic 500 insert-failure outcome, not the 400
already-voted outcome; only the pre-flight check produces already-voted. -/
theorem c2_insert_conflict_returns_500 (pid u : String) (idx : ℚ)
    (xff xri : Option String) (now : Int) (db : Db) (conc : List Vote)
    (poll : Poll) (c : Vote)
    (hp : db.polls.find? (fun p => p.id == pid) = some poll)
    (hx : pollExpired poll.expires_at now = false)
    (h0 : 0 ≤ idx) (hlt : idx < (poll.options.length : ℚ))
    (hpre : existingUserVote db pid u = false)
    (hc : c ∈ conc) (hcp : c.poll_id = pid) (hcu : c.user_id = some u) :
    (postVote pid (some idx) (some u) xff xri now db conc).1 =
      VoteResp.insertFailed ∧
    voteStatus (postVote pid (some idx) (some u) xff xri now db conc).1 = 500 := by
  have hviol : insertViolation
      { polls := db.polls, votes := db.votes ++ conc }
      { poll_id := pid, user_id := some u, ip_address := none,
        option_index := idx, created_at := now } = true := by
    refine List.any_eq_true.mpr ⟨c, List.mem_append_right _ hc, ?_⟩
    simp [hcp, hcu]
  have hmain : (postVote pid (some idx) (some u) xff xri now db conc).1 =
      VoteResp.insertFailed := by
    simp only [postVote]
    rw [if_neg (not_lt.mpr h0), hp]
    simp only [hx, Bool.false_eq_true, if_false, if_neg (not_le.mpr hlt), hpre]
    simp only [insertAndTally, Option.isSome_some]
    simp [hviol]
  exact ⟨hmain, by rw [hmain]; rfl⟩

/-- C2 witness. -/
theorem c2_insert_conflict_returns_500_witness :
    (postVote ("p2") (some 1) (some ("u2")) none none 3
      ⟨[⟨"p2", "Best pet?", ["Cat", "Dog"], "alice", 0, none⟩], []⟩
      [⟨"p2", some ("u2"), none, 1, 2⟩]).1 = VoteResp.insertFailed ∧
    voteStatus (postVote ("p2") (some 1) (some ("u2")) none none 3
      ⟨[⟨"p2", "Best pet?", ["Cat", "Dog"], "alice", 0, none⟩], []⟩
      [⟨"p2", some ("u2"), none, 1, 2⟩]).1 = 500 :=
  c2_insert_conflict_returns_500 ("p2") ("u2") 1 none none 3
    ⟨[⟨"p2", "Best pet?", ["Cat", "Dog"], "alice", 0, none⟩], []⟩
    [⟨"p2", some ("u2"), none, 1, 2⟩]
    ⟨"p2", "Best pet?", ["Cat", "Dog"], "alice", 0, none⟩
    ⟨"p2", some ("u2"), none, 1, 2⟩
    (by decide) (by decide) (by norm_num) (by norm_num)
    (by decide) (by decide) rfl rfl

/-- C8: an update or delete request with a valid body whose authenticated
identity owns no poll row with the requested id (the poll is missing, or it
belongs to someone else) fails with the not-found outcome — never a
distinct forbidden outcome — and the store, polls and votes alike, is
returned unchanged. -/
theorem c8_noncreator_update_delete_notfound (bid : String) (b : PollBody)
    (u : String) (db : Db)
    (hu : isUuid bid = true) (hs : pollSchemaCheck b = true)
    (hown : db.polls.find? (fun p => p.id == bid && p.created_by == u) = none) :
    putPoll bid b (some u) db = (.notFound, db) ∧
    deletePoll (some bid) (some u) db = (.notFound, db) := by
  constructor
  · simp only [putPoll, hu, hs, Bool.and_self, if_true]
    rw [hown]
  · simp only [deletePoll, hu, if_true]
    rw [hown]

/-- C8 witness. -/
theorem c8_noncreator_update_delete_notfound_witness :
    putPoll ("123e4567-e89b-42d3-a456-426614174000")
      ⟨"Best color?", ["Red", "Blue"], none⟩ (some ("bob"))
      ⟨[⟨"123e4567-e89b-42d3-a456-426614174000", "Best color?",
          ["Red", "Blue"], "alice", 0, none⟩],
        [⟨"123e4567-e89b-42d3-a456-426614174000", some ("u1"), none, 0, 0⟩]⟩ =
      (.notFound,
        ⟨[⟨"123e4567-e89b-42d3-a456-426614174000", "Best color?",
            ["Red", "Blue"], "alice", 0, none⟩],
          [⟨"123e4567-e89b-42d3-a456-426614174000", some ("u1"), none, 0, 0⟩]⟩) ∧
    deletePoll (some ("123e4567-e89b-42d3-a456-426614174000")) (some ("bob"))
      ⟨[⟨"123e4567-e89b-42d3-a456-426614174000", "Best color?",
          ["Red", "Blue"], "alice", 0, none⟩],
        [⟨"123e4567-e89b-42d3-a456-426614174000", some ("u1"), none, 0, 0⟩]⟩ =
      (.notFound,
        ⟨[⟨"123e4567-e89b-42d3-a456-426614174000", "Best color?",
            ["Red", "Blue"], "alice", 0, none⟩],
          [⟨"123e4567-e89b-42d3-a456-426614174000", some ("u1"), none, 0, 0⟩]⟩) :=
  c8_noncreator_update_delete_notfound ("123e4567-e89b-42d3-a456-426614174000")
    ⟨"Best color?", ["Red", "Blue"], none⟩ ("bob")
    ⟨[⟨"123e4567-e89b-42d3-a456-426614174000", "Best color?",
        ["Red", "Blue"], "alice", 0, none⟩],
      [⟨"123e4567-e89b-42d3-a456-426614174000", some ("u1"), none, 0, 0⟩]⟩
    (by decide) (by decide) (by decide)

/-- C9 counterexample: a question of raw length five whose trimmed form has
length two passes validation, and the persisted question is that trimmed
two-character string, violating the claimed 5..160 bound on the stored
(trimmed) value. -/
theorem c9_counterexample :
    createPoll ⟨"  ab ", ["A", "B"], none⟩ (some ("u1")) 0 ⟨[], []⟩ =
      (PollResp.created ⟨"poll-0", "ab", ["A", "B"], "u1", 0, none⟩,
        ⟨[⟨"poll-0", "ab", ["A", "B"], "u1", 0, none⟩], []⟩) ∧
    ¬ 5 ≤ ("ab").length := by decide

/-- C9 (amended): for every successful poll creation, the persisted
question is the trimmed input whose untrimmed length is between 5 and 160,
and each persisted option is the trimmed input whose untrimmed length is
between 1 and 50 — the character limits hold of the raw inputs, so the
stored trimmed values can be shorter than the minima. -/
theorem c9_created_poll_trimmed_bounds (b : PollBody) (u : String) (now : Int)
    (db db2 : Db) (p : Poll)
    (h : createPoll b (some u) now db = (.created p, db2)) :
    p.question = jsTrim b.question ∧
    5 ≤ b.question.length ∧ b.question.length ≤ 160 ∧
    p.options = b.options.map jsTrim ∧
    ∀ o ∈ b.options, 1 ≤ o.length ∧ o.length ≤ 50 := by
  by_cases hc : pollSchemaCheck b
  case neg => simp [createPoll, hc] at h
  case pos =>
    simp only [createPoll, hc, if_true, Prod.mk.injEq] at h
    obtain ⟨h1, _⟩ := h
    injection h1 with h1
    subst h1
    have hb := hc
    simp only [pollSchemaCheck, questionOk, optionsOk, optionOk,
      Bool.and_eq_true, decide_eq_true_eq, List.all_eq_true] at hb
    exact ⟨rfl, hb.1.1, hb.1.2, rfl, fun o ho => hb.2.1.1.1 o ho⟩

/-- C9 witness. -/
theorem c9_created_poll_trimmed_bounds_witness :
    (⟨"poll-0", "Best color?", ["Red", "Blue"], "u1", 0, none⟩ : Poll).question =
      jsTrim ("Best color?") ∧
    5 ≤ ("Best color?").length ∧ ("Best color?").length ≤ 160 ∧
    (⟨"poll-0", "Best color?", ["Red", "Blue"], "u1", 0, none⟩ : Poll).options =
      (["Red", "Blue"]).map jsTrim ∧
    ∀ o ∈ (["Red", "Blue"] : List String), 1 ≤ o.length ∧ o.length ≤ 50 :=
  c9_created_poll_trimmed_bounds ⟨"Best color?", ["Red", "Blue"], none⟩ ("u1") 0
    ⟨[], []⟩ ⟨[⟨"poll-0", "Best color?", ["Red", "Blue"], "u1", 0, none⟩], []⟩
    ⟨"poll-0", "Best color?", ["Red", "Blue"], "u1", 0, none⟩
    (by decide)

theorem insertViolation_user_eq (db : Db) (pid u : String) (idx : ℚ) (now : Int) :
    insertViolation db ⟨pid, some u, none, idx, now⟩ =
      existingUserVote db pid u := by
  simp [insertViolation, existingUserVote]

theorem insertViolation_anon_false (db : Db) (pid ip : String) (idx : ℚ)
    (now : Int) (hwf : db.wf) (hip : existingIpVote db pid ip = false) :
    insertViolation db ⟨pid, none, some ip, idx, now⟩ = false := by
  simp only [insertViolation, existingIpVote, List.any_eq_false] at hip ⊢
  intro v hv
  have h1 := hip v hv
  have h2 := hwf v hv
  simp only [Option.isSome_none, Option.isSome_some, Bool.false_and,
    Bool.true_and, Bool.false_or, Bool.and_eq_true, beq_iff_eq, not_and] at h1 ⊢
  intro hpoll hipeq
  rcases h2 with ⟨_, hnone⟩ | ⟨hnone, _⟩
  · rw [hnone] at hipeq; exact Option.noConfusion hipeq
  · exact h1 ⟨hpoll, hipeq⟩ hnone

theorem insertAndTally_anon_ok (pid ip : String) (idx : ℚ) (poll : Poll)
    (now : Int) (db : Db) (hwf : db.wf)
    (hip : existingIpVote db pid ip = false) :
    insertAndTally pid idx none ip poll now db [] =
      (.success
        (countVotes poll.options.length
          (pollVoteIdxs pid (dbAfter db ⟨pid, none, some ip, idx, now⟩)))
        (pollVoteIdxs pid (dbAfter db ⟨pid, none, some ip, idx, now⟩)).length idx,
       dbAfter db ⟨pid, none, some ip, idx, now⟩) := by
  simp only [insertAndTally, List.append_nil, Option.isSome_none,
    Bool.false_eq_true, if_false, dbAfter]
  rw [if_neg]
  rw [insertViolation_anon_false db pid ip idx now hwf hip]
  simp

theorem insertAndTally_user_ok (pid u ip : String) (idx : ℚ) (poll : Poll)
    (now : Int) (db : Db) (huser : existingUserVote db pid u = false) :
    insertAndTally pid idx (some u) ip poll now db [] =
      (.success
        (countVotes poll.options.length
          (pollVoteIdxs pid (dbAfter db ⟨pid, some u, none, idx, now⟩)))
        (pollVoteIdxs pid (dbAfter db ⟨pid, some u, none, idx, now⟩)).length idx,
       dbAfter db ⟨pid, some u, none, idx, now⟩) := by
  simp only [insertAndTally, List.append_nil, Option.isSome_some, if_true, dbAfter]
  rw [if_neg]
  rw [insertViolation_user_eq db pid u idx now, huser]
  simp

theorem existingUserVote_dbAfter (db : Db) (nv : Vote) (pid u : String) :
    existingUserVote (dbAfter db nv) pid u =
      (existingUserVote db pid u ||
        (nv.poll_id == pid && nv.user_id == some u)) := by
  simp [existingUserVote, dbAfter, List.any_append]

/-- C10: the duplicate pre-checks are partitioned by identity type (the
authenticated check consults only rows with that user id, the anonymous
check only rows with that address and a null user id), and the storage
uniqueness constraints never pair a null identity column with a non-null
one; consequently, on a well-formed store where neither identity has voted,
an anonymous vote from a client address succeeds and a subsequent
authenticated vote from the same physical client (same headers) also
succeeds on the same poll. -/
theorem c10_dual_identity_votes (pid u : String) (idx : ℚ)
    (xff xri : Option String) (now : Int) (db : Db) (poll : Poll)
    (hp : db.polls.find? (fun p => p.id == pid) = some poll)
    (hx : pollExpired poll.expires_at now = false)
    (h0 : 0 ≤ idx) (hlt : idx < (poll.options.length : ℚ))
    (hip : existingIpVote db pid (clientIp xff xri) = false)
    (huser : existingUserVote db pid u = false)
    (hwf : db.wf) :
    (∃ cs tot, (postVote pid (some idx) none xff xri now db []).1 =
      VoteResp.success cs tot idx) ∧
    (∃ cs tot, (postVote pid (some idx) (some u) xff xri now
        (postVote pid (some idx) none xff xri now db []).2 []).1 =
      VoteResp.success cs tot idx) := by
  have hrun1 : postVote pid (some idx) none xff xri now db [] =
      (.success
        (countVotes poll.options.length
          (pollVoteIdxs pid (dbAfter db ⟨pid, none, some (clientIp xff xri), idx, now⟩)))
        (pollVoteIdxs pid
          (dbAfter db ⟨pid, none, some (clientIp xff xri), idx, now⟩)).length idx,
       dbAfter db ⟨pid, none, some (clientIp xff xri), idx, now⟩) := by
    simp only [postVote]
    rw [if_neg (not_lt.mpr h0), hp]
    simp only [hx, Bool.false_eq_true, if_false, if_neg (not_le.mpr hlt)]
    simp only [hip, Bool.false_eq_true, if_false]
    exact insertAndTally_anon_ok pid (clientIp xff xri) idx poll now db hwf hip
  refine ⟨⟨_, _, by rw [hrun1]⟩, ?_⟩
  have hp1 : (dbAfter db ⟨pid, none, some (clientIp xff xri), idx, now⟩).polls.find?
      (fun p => p.id == pid) = some poll := hp
  have huser1 : existingUserVote
      (dbAfter db ⟨pid, none, some (clientIp xff xri), idx, now⟩) pid u = false := by
    rw [existingUserVote_dbAfter, huser]
    simp
  have hrun2 : postVote pid (some idx) (some u) xff xri now
      (dbAfter db ⟨pid, none, some (clientIp xff xri), idx, now⟩) [] =
      (.success
        (countVotes poll.options.length
          (pollVoteIdxs pid
            (dbAfter (dbAfter db ⟨pid, none, some (clientIp xff xri), idx, now⟩)
              ⟨pid, some u, none, idx, now⟩)))
        (pollVoteIdxs pid
          (dbAfter (dbAfter db ⟨pid, none, some (clientIp xff xri), idx, now⟩)
            ⟨pid, some u, none, idx, now⟩)).length idx,
       dbAfter (dbAfter db ⟨pid, none, some (clientIp xff xri), idx, now⟩)
         ⟨pid, some u, none, idx, now⟩) := by
    simp only [postVote]
    rw [if_neg (not_lt.mpr h0), hp1]
    simp only [hx, Bool.false_eq_true, if_false, if_neg (not_le.mpr hlt)]
    simp only [huser1, Bool.false_eq_true, if_false]
    exact insertAndTally_user_ok pid u (clientIp xff xri) idx poll now
      (dbAfter db ⟨pid, none, some (clientIp xff xri), idx, now⟩) huser1
  rw [hrun1]
  exact ⟨_, _, by rw [hrun2]⟩

/-- C10 witness. -/
theorem c10_dual_identity_votes_witness :
    (∃ cs tot, (postVote ("p1") (some 0) none (some ("7.7.7.7")) none 0
      ⟨[⟨"p1", "Best color?", ["Red", "Blue"], "alice", 0, none⟩], []⟩ []).1 =
      VoteResp.success cs tot 0) ∧
    (∃ cs tot, (postVote ("p1") (some 0) (some ("u1")) (some ("7.7.7.7")) none 0
        (postVote ("p1") (some 0) none (some ("7.7.7.7")) none 0
          ⟨[⟨"p1", "Best color?", ["Red", "Blue"], "alice", 0, none⟩], []⟩ []).2 []).1 =
      VoteResp.success cs tot 0) :=
  c10_dual_identity_votes ("p1") ("u1") 0 (some ("7.7.7.7")) none 0
    ⟨[⟨"p1", "Best color?", ["Red", "Blue"], "alice", 0, none⟩], []⟩
    ⟨"p1", "Best color?", ["Red", "Blue"], "alice", 0, none⟩
    (by decide) (by decide) (by norm_num) (by norm_num)
    (by decide) (by decide) (by intro v hv; simp at hv)

